import Mathlib

/-!
Verification development for the request-authorization pipeline of the
io-functions repository.

The definitions below are a shallow embedding of the TypeScript sources:

* `lib/utils/middlewares/azure_api_auth.ts` — `UserGroup`, `toUserGroup`,
  `getGroupsFromHeader`, `AzureApiAuthMiddleware`;
* `lib/controllers/adm/services.ts` — `retrievedServiceToPublic`,
  `ServicePayloadMiddleware`, `GetServiceHandler`;
* parts of the repository that are referenced by the above but whose files
  are not available (`utils/strings.ts`, `utils/request_middleware.ts`,
  `utils/source_ip_check.ts`, `middlewares/azure_user_attributes.ts`,
  `models/service.ts`, the API definition types `CIDR`, `FiscalCode`,
  `Service`) are modelled from the specification; each such definition says
  so in its doc comment.

Requests are modelled extensionally as maps from header names to optional
string values; asynchronous collaborators are modelled as pure functions
returning `Except` values (left = failure, right = success, matching the
fp-ts `Either` convention of the source).  JavaScript `Set` values are
modelled as `Finset` when only membership, cardinality and intersection
matter (user groups), and as duplicate-free lists when the source iterates
them in insertion order (`Array.from`).
-/

deriving instance DecidableEq for Except

/-- A request, restricted to what the middlewares consume: a map from header
names to the value returned by `request.header(name)` (`none` models
`undefined`). -/
abbrev Request := String → Option String

/-- Replaces the value of one header of a request, leaving the others
untouched.  Used to state that a middleware's outcome does not depend on a
header it is claimed never to consult. -/
def setHeader (r : Request) (k : String) (v : Option String) : Request :=
  fun k' => if k' = k then v else r k'

/-- Modelled from the spec: `toNonEmptyString` from `utils/strings.ts` (file
not available).  Yields the string when it is present and non-empty, and
nothing otherwise ("non-empty string" fields of the data model; corroborated
by the test that an empty `x-user-email` header is rejected). -/
def toNonEmptyString : Option String → Option String
  | none => none
  | some s => if s = "" then none else some s

/-- Splits a character list at every occurrence of a separator character,
accumulating the current chunk in reverse; the JavaScript semantics of
`String.prototype.split` with a one-character separator (splitting the empty
string yields one empty chunk). -/
def splitCharsOn (sep : Char) : List Char → List Char → List String
  | [], acc => [String.mk acc.reverse]
  | c :: rest, acc =>
    if c = sep then String.mk acc.reverse :: splitCharsOn sep rest []
    else splitCharsOn sep rest (c :: acc)

/-- Splits a string at every occurrence of a separator character, the
JavaScript `s.split(sep)`. -/
def jsSplit (s : String) (sep : Char) : List String :=
  splitCharsOn sep s.data []

/-- The closed enumeration of Azure user groups, from
`azure_api_auth.ts` (`enum UserGroup`). -/
inductive UserGroup where
  | ApiLimitedProfileRead
  | ApiFullProfileRead
  | ApiProfileWrite
  | ApiServiceRead
  | ApiServiceWrite
  | ApiMessageRead
  | ApiMessageWrite
  | ApiLimitedMessageWrite
  | ApiMessageWriteDefaultAddress
  | ApiMessageList
  | ApiInfoRead
  | ApiDebugRead
  deriving DecidableEq, Repr

/-- A value the source's indexed enum lookup `UserGroup[name]` can
produce: either a genuine `UserGroup` member, or a member inherited from
`Object.prototype` through the prototype chain of the compiled enum object
(identified by the property name that reached it). -/
inductive JsValue where
  | enumMember (g : UserGroup)
  | protoMember (name : String)
  deriving DecidableEq

/-- The property names inherited by every plain JavaScript object from
`Object.prototype`, including the `__proto__` accessor: on these names the
indexed lookup on the compiled enum object is defined even though they are
not enum keys. -/
def objectProtoKeys : List String :=
  ["constructor", "hasOwnProperty", "isPrototypeOf", "propertyIsEnumerable",
   "toLocaleString", "toString", "valueOf", "__defineGetter__",
   "__defineSetter__", "__lookupGetter__", "__lookupSetter__", "__proto__"]

/-- Looks up a `UserGroup` by name, from `azure_api_auth.ts`
(`toUserGroup`): `option(UserGroup[name as keyof typeof UserGroup])` on
the compiled enum object.  One of the 12 enum keys yields its member; a
name of an inherited `Object.prototype` property yields that inherited
member, which is neither null nor undefined, so `option(...)` wraps it in
`Some`; every other name yields undefined, hence `None`. -/
def toUserGroup : String → Option JsValue
  | "ApiLimitedProfileRead" => some (.enumMember .ApiLimitedProfileRead)
  | "ApiFullProfileRead" => some (.enumMember .ApiFullProfileRead)
  | "ApiProfileWrite" => some (.enumMember .ApiProfileWrite)
  | "ApiServiceRead" => some (.enumMember .ApiServiceRead)
  | "ApiServiceWrite" => some (.enumMember .ApiServiceWrite)
  | "ApiMessageRead" => some (.enumMember .ApiMessageRead)
  | "ApiMessageWrite" => some (.enumMember .ApiMessageWrite)
  | "ApiLimitedMessageWrite" => some (.enumMember .ApiLimitedMessageWrite)
  | "ApiMessageWriteDefaultAddress" =>
    some (.enumMember .ApiMessageWriteDefaultAddress)
  | "ApiMessageList" => some (.enumMember .ApiMessageList)
  | "ApiInfoRead" => some (.enumMember .ApiInfoRead)
  | "ApiDebugRead" => some (.enumMember .ApiDebugRead)
  | n => if objectProtoKeys.contains n then some (.protoMember n) else none

/-- Extracts the group set from a comma-separated groups header, from
`azure_api_auth.ts` (`getGroupsFromHeader`): split on commas, look each
token up, keep the defined results, collect into a set.  Because of the
prototype-chain case of `toUserGroup`, the set may contain inherited
`Object.prototype` members besides genuine groups. -/
def getGroupsFromHeader (groupsHeader : String) : Finset JsValue :=
  ((jsSplit groupsHeader ',').filterMap toUserGroup).toFinset

/-- The failure kinds `AzureApiAuthMiddleware` can produce
(`ResponseErrorForbidden*` in `utils/response.ts`). -/
inductive AuthError where
  | forbiddenNotAuthorized
  | forbiddenAnonymousUser
  | forbiddenNoAuthorizationGroups
  deriving DecidableEq, Repr

/-- Azure authorization info, from `azure_api_auth.ts`
(`IAzureApiAuthorization`; the constant `kind` tag is dropped). -/
structure IAzureApiAuthorization where
  groups : Finset JsValue
  userId : String
  subscriptionId : String
  deriving DecidableEq

/-- The identity middleware, from `azure_api_auth.ts`
(`AzureApiAuthMiddleware`): reads `x-user-id` and `x-subscription-id`
(failing with `forbiddenAnonymousUser` when either is missing or empty),
then parses `x-user-groups` (failing with
`forbiddenNoAuthorizationGroups` when the recognized-group set is empty),
then checks that the caller holds at least one allowed group — the source's
`Array.from(allowedGroups).findIndex(userHasOneGroup) > -1` — failing with
`forbiddenNotAuthorized` otherwise; on success it returns the identity
carrying the full parsed group set. -/
def AzureApiAuthMiddleware (allowedGroups : Finset UserGroup)
    (request : Request) : Except AuthError IAzureApiAuthorization :=
  let maybeUserId := toNonEmptyString (request "x-user-id")
  let maybeSubscriptionId := toNonEmptyString (request "x-subscription-id")
  match maybeUserId, maybeSubscriptionId with
  | some userId, some subscriptionId =>
    let maybeGroups :=
      ((toNonEmptyString (request "x-user-groups")).map
        getGroupsFromHeader).filter fun gs => gs.card != 0
    match maybeGroups with
    | some groups =>
      let userHasAnyAllowedGroup :=
        decide (∃ g ∈ allowedGroups, JsValue.enumMember g ∈ groups)
      if userHasAnyAllowedGroup then
        .ok { groups := groups, userId := userId, subscriptionId := subscriptionId }
      else
        .error .forbiddenNotAuthorized
    | none => .error .forbiddenNoAuthorizationGroups
  | _, _ => .error .forbiddenAnonymousUser

/-- The genuine `UserGroup` members named by the tokens of a groups
header: the recognized groups, with the inherited prototype members left
out.  Derived notion used to state the claims. -/
def recognizedGroups (groupsHeader : String) : Finset UserGroup :=
  ((jsSplit groupsHeader ',').filterMap fun t =>
    match toUserGroup t with
    | some (JsValue.enumMember g) => some g
    | _ => none).toFinset

/-- The set of recognized groups carried by the `x-user-groups` header of a
request (empty when the header is missing or empty).  Derived notion used to
state the claims about the group-check stage of `AzureApiAuthMiddleware`. -/
def parsedUserGroups (r : Request) : Finset UserGroup :=
  match toNonEmptyString (r "x-user-groups") with
  | none => ∅
  | some h => recognizedGroups h

/-- The numeric value of a decimal digit character, if it is one. -/
def decDigit (c : Char) : Option Nat :=
  if c.isDigit then some (c.toNat - 48) else none

/-- Reads a run of decimal digits as a number, failing on any other
character. -/
def parseDecAux : List Char → Nat → Option Nat
  | [], acc => some acc
  | c :: rest, acc =>
    match decDigit c with
    | some d => parseDecAux rest (acc * 10 + d)
    | none => none

/-- Parses a non-empty all-digit string as a decimal number. -/
def parseDec (s : String) : Option Nat :=
  if s.data.isEmpty then none else parseDecAux s.data 0

/-- Parses a dotted-quad IPv4 address into its four octet values. -/
def parseIPv4 (s : String) : Option (List Nat) :=
  let parts := jsSplit s '.'
  if parts.length == 4 then
    let octets := parts.filterMap parseDec
    if octets.length == 4 && octets.all fun o => decide (o ≤ 255) then
      some octets
    else none
  else none

/-- Modelled from the spec: the `CIDR` API definition type (file
`api/definitions/CIDR.ts` not available): a validated address-range literal,
`a.b.c.d/n` or a single address (spec section 3). -/
def CIDR.is (s : String) : Bool :=
  match jsSplit s '/' with
  | [addr] => (parseIPv4 addr).isSome
  | [addr, len] =>
    (parseIPv4 addr).isSome &&
      (match parseDec len with
       | some n => decide (n ≤ 32)
       | none => false)
  | _ => false

/-- Modelled from the spec: the `FiscalCode` API definition type (file not
available): a FiscalCode-like identifier, 16 upper-case letters or digits. -/
def FiscalCode.is (s : String) : Bool :=
  s.data.length == 16 && s.data.all fun c => c.isUpper || c.isDigit

/-- The numeric value of an IPv4 address given as its octet list. -/
def ipv4ToNat (octets : List Nat) : Nat :=
  octets.foldl (fun acc o => acc * 256 + o) 0

/-- Whether an address lies in the range given by a base address and a mask
length: the two addresses agree on the first `maskLen` bits. -/
def inIpRange (base : String) (maskLen : Nat) (ip : String) : Bool :=
  match parseIPv4 base, parseIPv4 ip with
  | some b, some i =>
    ipv4ToNat b / 2 ^ (32 - maskLen) == ipv4ToNat i / 2 ^ (32 - maskLen)
  | _, _ => false

/-- Modelled from the spec: the CIDR membership test used by the source-IP
gate (`utils/source_ip_check.ts` not available): a pure function of
(address, range), address-in-range by standard bit masking; a range without
an explicit length is the single address (spec sections 3 and 4.6). -/
def cidrContains (cidr : String) (ip : String) : Bool :=
  match jsSplit cidr '/' with
  | [addr] => inIpRange addr 32 ip
  | [addr, len] =>
    match parseDec len with
    | some n => inIpRange addr n ip
    | _ => false
  | _ => false

/-- Modelled from the spec: the public `Service` API type
(`api/definitions/Service.ts` not available): the shape consumed by
`ServicePayloadMiddleware` and produced by `retrievedServiceToPublic`;
`id` and `version` only appear on retrieved records. -/
structure Service where
  authorized_cidrs : List String
  authorized_recipients : List String
  department_name : String
  id : Option String
  organization_name : String
  service_id : String
  service_name : String
  version : Option Nat
  deriving DecidableEq

/-- Modelled from the spec: the `Service.is` decoder check on an
already-shaped body: every CIDR and recipient literal is valid and the
name fields are non-empty strings (spec section 3 data model). -/
def Service.is (body : Service) : Bool :=
  body.authorized_cidrs.all CIDR.is &&
    body.authorized_recipients.all FiscalCode.is &&
    body.department_name != "" &&
    body.organization_name != "" &&
    body.service_id != "" &&
    body.service_name != ""

/-- Modelled from the spec: `IService` from `models/service.ts` (file not
available): the internal service payload; the set-typed fields are
JavaScript `Set`s, modelled as duplicate-free lists in insertion order. -/
structure IService where
  authorizedCIDRs : List String
  authorizedRecipients : List String
  departmentName : String
  organizationName : String
  serviceId : String
  serviceName : String
  deriving DecidableEq

/-- Modelled from the spec: `IRetrievedService` from `models/service.ts`
(file not available): a stored service record, the payload plus the
persistence fields `id` and `version`. -/
structure IRetrievedService extends IService where
  id : String
  version : Nat
  deriving DecidableEq

/-- Modelled from the spec: `toAuthorizedCIDRs` from `models/service.ts`
(file not available): builds the CIDR set of a payload from the decoded
array, i.e. a JavaScript `new Set(array)` — duplicates removed, membership
preserved. -/
def toAuthorizedCIDRs (cidrs : List String) : List String :=
  cidrs.dedup

/-- Modelled from the spec: `toAuthorizedRecipients` from
`models/service.ts` (file not available): builds the recipient set of a
payload from the decoded array, as a set with membership preserved. -/
def toAuthorizedRecipients (recipients : List String) : List String :=
  recipients.dedup

/-- Converts a retrieved service to a service that can be shared via API,
from `services.ts` (`retrievedServiceToPublic`): iterate each stored set
(`Array.from`) and keep the members that are valid literals. -/
def retrievedServiceToPublic (retrievedService : IRetrievedService) :
    Service :=
  { authorized_cidrs := retrievedService.authorizedCIDRs.filter CIDR.is
    authorized_recipients :=
      retrievedService.authorizedRecipients.filter FiscalCode.is
    department_name := retrievedService.departmentName
    id := some retrievedService.id
    organization_name := retrievedService.organizationName
    service_id := retrievedService.serviceId
    service_name := retrievedService.serviceName
    version := some retrievedService.version }

/-- The failure kind of `ServicePayloadMiddleware`
(`ResponseErrorValidation` in `utils/response.ts`). -/
inductive ValidationError where
  | responseErrorValidation (title : String) (detail : String)
  deriving DecidableEq

/-- A middleware that extracts a Service payload from a request, from
`services.ts` (`ServicePayloadMiddleware`): validate the body, then build
the internal payload with its set-typed fields. -/
def ServicePayloadMiddleware (body : Service) :
    Except ValidationError IService :=
  if Service.is body then
    .ok
      { authorizedCIDRs := toAuthorizedCIDRs body.authorized_cidrs
        authorizedRecipients :=
          toAuthorizedRecipients body.authorized_recipients
        departmentName := body.department_name
        organizationName := body.organization_name
        serviceId := body.service_id
        serviceName := body.service_name }
  else
    .error
      (.responseErrorValidation "Invalid service payload"
        "Request body does not conform to the required service format")

/-- Modelled from the spec: storing a created payload yields a retrieved
record holding the payload's fields plus the persistence fields
(`ServiceModel.create` in `models/service.ts`, file not available). -/
def serviceToRetrieved (s : IService) (id : String) (version : Nat) :
    IRetrievedService :=
  { toIService := s, id := id, version := version }

/-- The response kinds `GetServiceHandler` can produce. -/
inductive ServiceResponse where
  | successJson (payload : Service)
  | errorNotFound (title : String) (detail : String)
  | errorQuery (detail : String) (err : String)
  deriving DecidableEq

/-- The GetService business handler, from `services.ts`
(`GetServiceHandler`): look the service up by id; a lookup failure becomes
`errorQuery`, an absent record becomes `errorNotFound`, a present record
becomes `successJson` of its public form.  The lookup collaborator
(`serviceModel.findOneByServiceId`) is passed in as a function; query
errors are carried as strings. -/
def GetServiceHandler
    (findOneByServiceId : String → Except String (Option IRetrievedService))
    (serviceId : String) : ServiceResponse :=
  match findOneByServiceId serviceId with
  | .ok maybeService =>
    match maybeService with
    | none =>
      .errorNotFound "Service not found"
        "The service you requested was not found in the system."
    | some service => .successJson (retrievedServiceToPublic service)
  | .error e => .errorQuery "Error while retrieving the service" e

/-- Modelled from the spec: `withRequestMiddlewares` from
`utils/request_middleware.ts` (file not available): the combinator runs an
ordered list of middlewares sequentially, stops at the first failure and
returns it, and on all successes returns the ordered list of success
values (spec section 4.2; the source's fixed-arity heterogeneous tuples are
modelled as a homogeneous list). -/
def withRequestMiddlewares {F V : Type}
    (middlewares : List (Request → Except F V)) (request : Request) :
    Except F (List V) :=
  match middlewares with
  | [] => .ok []
  | m :: rest =>
    match m request with
    | .error e => .error e
    | .ok v =>
      match withRequestMiddlewares rest request with
      | .error e => .error e
      | .ok vs => .ok (v :: vs)

/-- The outcome of the source-IP gate: either the wrapped handler's
response or the forbidden short-circuit. -/
inductive SourceIpResult (R : Type) where
  | handled (response : R)
  | forbiddenNotAuthorized
  deriving DecidableEq

/-- Modelled from the spec: `checkSourceIpForHandler` from
`utils/source_ip_check.ts` (file not available): wraps a resolved handler;
a projector extracts the client IP and the entity's authorized-CIDR set
from the handler's arguments; an empty set allows the call, otherwise the
call is allowed exactly when the client IP matches some CIDR of the set,
and on mismatch the gate short-circuits with ForbiddenNotAuthorized
(spec section 4.6). -/
def checkSourceIpForHandler {Args R : Type} (handler : Args → R)
    (extractIpAndCidrs : Args → String × List String) (args : Args) :
    SourceIpResult R :=
  let clientIp := (extractIpAndCidrs args).1
  let cidrs := (extractIpAndCidrs args).2
  if cidrs.isEmpty then .handled (handler args)
  else if cidrs.any fun cidr => cidrContains cidr clientIp then
    .handled (handler args)
  else .forbiddenNotAuthorized

/-- The failure kinds of `AzureUserAttributesMiddleware`
(`ResponseErrorInternal` and `ResponseErrorQuery` in `utils/response.ts`). -/
inductive UserAttributesError where
  | responseErrorInternal
  | responseErrorQuery (err : String)
  deriving DecidableEq

/-- User attributes, from the spec's `IAzureUserAttributes`: the caller's
email and its service record when one is registered. -/
structure IAzureUserAttributes where
  email : String
  service : Option IService
  deriving DecidableEq

/-- Modelled from the spec: `AzureUserAttributesMiddleware` from
`middlewares/azure_user_attributes.ts` (file not available; behaviour fixed
by spec section 4.4 and the test file): check `x-user-email` (missing or
empty fails with InternalError), then `x-subscription-id` (same failure),
then look the service up by the subscription id — a lookup failure becomes
QueryError, an absent record is a success with no service, a present record
a success carrying it. -/
def AzureUserAttributesMiddleware
    (findOneByServiceId : String → Except String (Option IService))
    (request : Request) : Except UserAttributesError IAzureUserAttributes :=
  match toNonEmptyString (request "x-user-email") with
  | none => .error .responseErrorInternal
  | some userEmail =>
    match toNonEmptyString (request "x-subscription-id") with
    | none => .error .responseErrorInternal
    | some subscriptionId =>
      match findOneByServiceId subscriptionId with
      | .error e => .error (.responseErrorQuery e)
      | .ok none => .ok { email := userEmail, service := none }
      | .ok (some service) =>
        .ok { email := userEmail, service := some service }

/-- Fixture: a request carrying no header at all. -/
def reqEmpty : Request := fun _ => none

/-- Fixture: a request with valid identity headers and an unrecognized
groups header. -/
def reqBogusGroups : Request := fun k =>
  if k = "x-user-id" then some "u123"
  else if k = "x-subscription-id" then some "s456"
  else if k = "x-user-groups" then some "Bogus"
  else none

/-- Fixture: a request with valid identity headers and a recognized groups
header. -/
def reqServiceRead : Request := fun k =>
  if k = "x-user-id" then some "u123"
  else if k = "x-subscription-id" then some "s456"
  else if k = "x-user-groups" then some "ApiServiceRead"
  else none

/-- Fixture: a request carrying a recognized groups header but no identity
headers. -/
def reqGroupsNoUser : Request := fun k =>
  if k = "x-user-groups" then some "ApiServiceRead" else none

/-- Fixture: valid identity headers and a groups header made of the single
token toString, which is no enum name but reaches an inherited
`Object.prototype` member. -/
def reqToString : Request := fun k =>
  if k = "x-user-id" then some "u123"
  else if k = "x-subscription-id" then some "s456"
  else if k = "x-user-groups" then some "toString"
  else none

/-- Fixture: valid identity headers and a groups header mixing a
recognized group with the toString token. -/
def reqMixedGroups : Request := fun k =>
  if k = "x-user-id" then some "u123"
  else if k = "x-subscription-id" then some "s456"
  else if k = "x-user-groups" then some "ApiServiceRead,toString"
  else none

/-- Fixture: the identity the middleware constructs for `reqMixedGroups` —
its group set carries the inherited toString member besides the genuine
group. -/
def authMixedFx : IAzureApiAuthorization :=
  { groups := {JsValue.enumMember UserGroup.ApiServiceRead,
               JsValue.protoMember "toString"}
    userId := "u123"
    subscriptionId := "s456" }

/-- Fixture: a request whose user-email header is present but empty. -/
def reqEmptyEmail : Request := fun k =>
  if k = "x-user-email" then some ""
  else if k = "x-subscription-id" then some "MySubscriptionId"
  else none

/-- Fixture: a request with valid email and subscription-id headers. -/
def reqAttrs : Request := fun k =>
  if k = "x-user-email" then some "test@example.com"
  else if k = "x-subscription-id" then some "MySubscriptionId"
  else none

/-- Fixture: a valid public service payload. -/
def bodyFx : Service :=
  { authorized_cidrs := ["10.0.0.0/24"]
    authorized_recipients := ["RSSMRA80A01H501U"]
    department_name := "MyDept"
    id := none
    organization_name := "MyOrg"
    service_id := "sid"
    service_name := "MyService"
    version := none }

/-- Fixture: the internal payload built from `bodyFx`. -/
def svcFx : IService :=
  { authorizedCIDRs := ["10.0.0.0/24"]
    authorizedRecipients := ["RSSMRA80A01H501U"]
    departmentName := "MyDept"
    organizationName := "MyOrg"
    serviceId := "sid"
    serviceName := "MyService" }

example : jsSplit "a,,b" ',' = ["a", "", "b"] := by decide
example : cidrContains "10.0.0.0/24" "10.0.0.5" = true := by decide
example : cidrContains "10.0.0.0/24" "10.0.1.5" = false := by decide
example : CIDR.is "10.0.0.0/24" = true := by decide
example : FiscalCode.is "RSSMRA80A01H501U" = true := by decide
example :
    toUserGroup "ApiServiceRead" =
      some (JsValue.enumMember .ApiServiceRead) := by
  decide
example : toUserGroup "Bogus" = none := by decide
example : toUserGroup "toString" = some (JsValue.protoMember "toString") := by
  decide
example :
    getGroupsFromHeader "ApiServiceRead,Bogus" =
      {JsValue.enumMember UserGroup.ApiServiceRead} := by
  decide
example :
    getGroupsFromHeader "ApiServiceRead,toString" =
      {JsValue.enumMember UserGroup.ApiServiceRead,
       JsValue.protoMember "toString"} := by
  decide
example :
    AzureApiAuthMiddleware {UserGroup.ApiServiceRead} reqEmpty =
      Except.error AuthError.forbiddenAnonymousUser := by
  decide

/-- Characterization of `toNonEmptyString` succeeding. -/
theorem toNonEmptyString_eq_some {o : Option String} {s : String} :
    toNonEmptyString o = some s ↔ o = some s ∧ s ≠ "" := by
  cases o with
  | none => simp [toNonEmptyString]
  | some t =>
    by_cases h : t = ""
    · subst h
      simp only [toNonEmptyString, if_pos rfl]
      constructor
      · intro hc; cases hc
      · rintro ⟨hc, hne⟩
        injection hc with hc
        exact absurd hc.symm hne
    · simp only [toNonEmptyString, if_neg h]
      constructor
      · intro hc
        injection hc with hc
        subst hc; exact ⟨rfl, h⟩
      · rintro ⟨hc, _⟩
        injection hc with hc
        rw [hc]

/-- Characterization of `toNonEmptyString` failing. -/
theorem toNonEmptyString_eq_none {o : Option String} :
    toNonEmptyString o = none ↔ o = none ∨ o = some "" := by
  cases o with
  | none => simp [toNonEmptyString]
  | some t =>
    by_cases h : t = ""
    · subst h; simp [toNonEmptyString]
    · simp [toNonEmptyString, h]

/-- The combinator short-circuits: after a prefix of successes, a failing
middleware's failure is returned whatever follows it. -/
theorem withRequestMiddlewares_shortCircuit {F V : Type}
    (m : Request → Except F V) (r : Request) (e : F)
    (tail : List (Request → Except F V)) :
    ∀ pre : List (Request → Except F V),
      (∀ p ∈ pre, ∃ v, p r = Except.ok v) → m r = Except.error e →
      withRequestMiddlewares (pre ++ m :: tail) r = Except.error e := by
  intro pre
  induction pre with
  | nil =>
    intro _ hm
    simp [withRequestMiddlewares, hm]
  | cons p rest ih =>
    intro hpre hm
    obtain ⟨v, hv⟩ := hpre p (by simp)
    have hrest := ih (fun q hq => hpre q (by simp [hq])) hm
    simp [withRequestMiddlewares, hv, hrest]

/-- The combinator collects every success value in input order. -/
theorem withRequestMiddlewares_allOk {F V : Type} (r : Request) :
    ∀ (ms : List (Request → Except F V)) (vs : List V),
      ms.map (fun p => p r) = vs.map Except.ok →
      withRequestMiddlewares ms r = Except.ok vs := by
  intro ms
  induction ms with
  | nil =>
    intro vs h
    cases vs with
    | nil => simp [withRequestMiddlewares]
    | cons v vs => simp at h
  | cons p rest ih =>
    intro vs h
    cases vs with
    | nil => simp at h
    | cons v vs =>
      simp only [List.map_cons, List.cons.injEq] at h
      simp [withRequestMiddlewares, h.1, ih vs h.2]

/-- C1: running the middleware list, if the middlewares before position i
all succeed and middleware i fails, the combinator returns exactly that
failure whatever the later middlewares are (so they are never invoked);
and when every middleware succeeds the combinator returns the ordered
list of their success values. -/
theorem azure_c1_withRequestMiddlewares {F V : Type}
    (pre : List (Request → Except F V)) (m : Request → Except F V)
    (r : Request) (e : F)
    (hpre : ∀ p ∈ pre, ∃ v, p r = Except.ok v)
    (hm : m r = Except.error e) :
    (∀ tail, withRequestMiddlewares (pre ++ m :: tail) r = Except.error e) ∧
    (∀ (ms : List (Request → Except F V)) (vs : List V),
      ms.map (fun p => p r) = vs.map Except.ok →
      withRequestMiddlewares ms r = Except.ok vs) :=
  ⟨fun tail => withRequestMiddlewares_shortCircuit m r e tail pre hpre hm,
   fun ms vs h => withRequestMiddlewares_allOk r ms vs h⟩

/-- Witness for C1: with middleware 2 of 3 failing, middleware 3 is
irrelevant and the failure comes back unmodified; and a fully-successful
run of middlewares 1 and 3 returns both values in order. -/
theorem azure_c1_witness :
    (∀ tail,
      withRequestMiddlewares
        ([fun _ => Except.ok 1] ++ (fun _ => Except.error 7) :: tail)
        reqEmpty = Except.error 7) ∧
    (∀ (ms : List (Request → Except Nat Nat)) (vs : List Nat),
      ms.map (fun p => p reqEmpty) = vs.map Except.ok →
      withRequestMiddlewares ms reqEmpty = Except.ok vs) :=
  azure_c1_withRequestMiddlewares [fun _ => Except.ok 1]
    (fun _ => Except.error 7) reqEmpty 7
    (by
      intro p hp
      rw [List.mem_singleton] at hp
      exact ⟨1, by rw [hp]⟩)
    rfl

/-- C2: the source-IP gate invokes the wrapped handler whenever the
resolved entity carries an empty authorized-CIDR set; with a non-empty set
it yields the handler's response exactly when the client IP lies in at
least one CIDR of the set; and on mismatch it returns
ForbiddenNotAuthorized whatever the wrapped handler is (so the handler is
never invoked). -/
theorem azure_c2_checkSourceIp {Args R : Type} (handler : Args → R)
    (extract : Args → String × List String) (a : Args) :
    ((extract a).2 = [] →
      checkSourceIpForHandler handler extract a =
        SourceIpResult.handled (handler a)) ∧
    ((extract a).2 ≠ [] →
      (checkSourceIpForHandler handler extract a =
          SourceIpResult.handled (handler a) ↔
        ∃ c ∈ (extract a).2, cidrContains c (extract a).1 = true)) ∧
    ((extract a).2 ≠ [] →
      (∀ c ∈ (extract a).2, cidrContains c (extract a).1 = false) →
      ∀ handler2 : Args → R,
        checkSourceIpForHandler handler2 extract a =
          SourceIpResult.forbiddenNotAuthorized) := by
  refine ⟨?_, ?_, ?_⟩
  · intro h
    simp [checkSourceIpForHandler, h]
  · intro h
    constructor
    · intro hres
      by_cases hany :
          (extract a).2.any (fun c => cidrContains c (extract a).1) = true
      · simpa [List.any_eq_true] using hany
      · exfalso
        rw [Bool.not_eq_true] at hany
        simp [checkSourceIpForHandler, List.isEmpty_iff, h, hany] at hres
    · intro hex
      have hany :
          (extract a).2.any (fun c => cidrContains c (extract a).1) = true :=
        List.any_eq_true.mpr hex
      simp [checkSourceIpForHandler, List.isEmpty_iff, h, hany]
  · intro h hall handler2
    have hany :
        (extract a).2.any (fun c => cidrContains c (extract a).1) = false := by
      rw [Bool.eq_false_iff, Ne, List.any_eq_true]
      rintro ⟨c, hc, hcc⟩
      rw [hall c hc] at hcc
      cases hcc
    simp [checkSourceIpForHandler, List.isEmpty_iff, h, hany]

/-- Witness for C2: with the set containing 10.0.0.0/24, client 10.0.0.5
is let through to the handler and client 10.0.1.5 is rejected without the
handler being consulted. -/
theorem azure_c2_witness :
    checkSourceIpForHandler (fun _ => (0 : Nat))
        (fun _ => ("10.0.0.5", ["10.0.0.0/24"])) () =
      SourceIpResult.handled 0 ∧
    checkSourceIpForHandler (fun _ => (0 : Nat))
        (fun _ => ("10.0.1.5", ["10.0.0.0/24"])) () =
      SourceIpResult.forbiddenNotAuthorized :=
  ⟨((azure_c2_checkSourceIp (fun _ => (0 : Nat))
        (fun _ => ("10.0.0.5", ["10.0.0.0/24"])) ()).2.1
      (by decide)).mpr ⟨"10.0.0.0/24", by decide, by decide⟩,
   (azure_c2_checkSourceIp (fun _ => (0 : Nat))
        (fun _ => ("10.0.1.5", ["10.0.0.0/24"])) ()).2.2
      (by decide) (by decide) (fun _ => (0 : Nat))⟩

/-- C10: GetServiceHandler's response is exhaustively determined by the
lookup outcome — a lookup failure yields exactly errorQuery carrying it, a
successful lookup of an absent record yields exactly errorNotFound, and a
successful lookup of a present record yields exactly successJson of its
public form; no other response kind occurs (the handler takes only the
read collaborator, so it performs no write). -/
theorem azure_c10_getServiceHandler
    (find : String → Except String (Option IRetrievedService))
    (serviceId : String) :
    (∀ e, find serviceId = Except.error e →
      GetServiceHandler find serviceId =
        ServiceResponse.errorQuery "Error while retrieving the service" e) ∧
    (find serviceId = Except.ok none →
      GetServiceHandler find serviceId =
        ServiceResponse.errorNotFound "Service not found"
          "The service you requested was not found in the system.") ∧
    (∀ s, find serviceId = Except.ok (some s) →
      GetServiceHandler find serviceId =
        ServiceResponse.successJson (retrievedServiceToPublic s)) ∧
    ((∃ m e, GetServiceHandler find serviceId =
        ServiceResponse.errorQuery m e) ↔ ∃ e, find serviceId = Except.error e) ∧
    ((∃ t d, GetServiceHandler find serviceId =
        ServiceResponse.errorNotFound t d) ↔ find serviceId = Except.ok none) ∧
    ((∃ s, GetServiceHandler find serviceId =
        ServiceResponse.successJson s) ↔
      ∃ s, find serviceId = Except.ok (some s)) := by
  cases hf : find serviceId with
  | error e => simp [GetServiceHandler, hf]
  | ok o =>
    cases o with
    | none => simp [GetServiceHandler, hf]
    | some s => simp [GetServiceHandler, hf]

/-- Witness for C10 at a concrete collaborator returning a present record:
the handler answers with the record's public form. -/
theorem azure_c10_witness :
    GetServiceHandler
        (fun _ => Except.ok (some (serviceToRetrieved svcFx "id1" 1)))
        "sid" =
      ServiceResponse.successJson
        (retrievedServiceToPublic (serviceToRetrieved svcFx "id1" 1)) :=
  (azure_c10_getServiceHandler
      (fun _ => Except.ok (some (serviceToRetrieved svcFx "id1" 1)))
      "sid").2.2.1 (serviceToRetrieved svcFx "id1" 1) rfl

/-- C6: when the user-email header is absent or empty, the user-attributes
middleware fails with InternalError for every collaborator and every value
of the subscription-id header — so the email check comes strictly first and
the lookup collaborator is never invoked. -/
theorem azure_c6_userAttributesEmailFirst (r : Request)
    (h : toNonEmptyString (r "x-user-email") = none) :
    ∀ (find : String → Except String (Option IService)) (sub : Option String),
      AzureUserAttributesMiddleware find
          (setHeader r "x-subscription-id" sub) =
        Except.error UserAttributesError.responseErrorInternal := by
  intro find sub
  have he : setHeader r "x-subscription-id" sub "x-user-email" =
      r "x-user-email" := by
    simp [setHeader]
  simp [AzureUserAttributesMiddleware, he, h]

/-- Witness for C6: the empty-email fixture is rejected as InternalError
even with a subscription id set and a collaborator available. -/
theorem azure_c6_witness :
    toNonEmptyString (reqEmptyEmail "x-user-email") = none ∧
    AzureUserAttributesMiddleware (fun _ => Except.ok none)
        (setHeader reqEmptyEmail "x-subscription-id"
          (some "MySubscriptionId")) =
      Except.error UserAttributesError.responseErrorInternal :=
  ⟨by decide,
   azure_c6_userAttributesEmailFirst reqEmptyEmail (by decide)
     (fun _ => Except.ok none) (some "MySubscriptionId")⟩

/-- C7: with valid email and subscription-id headers, an absent record from
the collaborator is a success whose service field is absent, the middleware
fails with QueryError exactly when the collaborator itself returns a
failure (with that failure carried), and the two outcomes are distinct. -/
theorem azure_c7_userAttributesLookup (r : Request)
    (find : String → Except String (Option IService))
    (email subId : String)
    (h1 : toNonEmptyString (r "x-user-email") = some email)
    (h2 : toNonEmptyString (r "x-subscription-id") = some subId) :
    (find subId = Except.ok none →
      AzureUserAttributesMiddleware find r =
        Except.ok { email := email, service := none }) ∧
    (∀ e, AzureUserAttributesMiddleware find r =
        Except.error (UserAttributesError.responseErrorQuery e) ↔
      find subId = Except.error e) ∧
    (∀ e (a : IAzureUserAttributes),
      (Except.ok a : Except UserAttributesError IAzureUserAttributes) ≠
        Except.error (UserAttributesError.responseErrorQuery e)) := by
  refine ⟨?_, ?_, ?_⟩
  · intro hf
    simp [AzureUserAttributesMiddleware, h1, h2, hf]
  · intro e
    constructor
    · intro hres
      cases hf : find subId with
      | error e' =>
        simp [AzureUserAttributesMiddleware, h1, h2, hf] at hres
        rw [hres]
      | ok o =>
        cases o with
        | none => simp [AzureUserAttributesMiddleware, h1, h2, hf] at hres
        | some svc =>
          simp [AzureUserAttributesMiddleware, h1, h2, hf] at hres
    · intro hf
      simp [AzureUserAttributesMiddleware, h1, h2, hf]
  · intro e a hc
    cases hc

/-- Witness for C7: at the valid-header fixture, a collaborator answering
with no record yields success with an absent service, and a failing
collaborator yields QueryError exactly because it failed. -/
theorem azure_c7_witness :
    toNonEmptyString (reqAttrs "x-user-email") = some "test@example.com" ∧
    toNonEmptyString (reqAttrs "x-subscription-id") =
      some "MySubscriptionId" ∧
    AzureUserAttributesMiddleware (fun _ => Except.ok none) reqAttrs =
      Except.ok { email := "test@example.com", service := none } ∧
    AzureUserAttributesMiddleware (fun _ => Except.error "error") reqAttrs =
      Except.error (UserAttributesError.responseErrorQuery "error") :=
  ⟨by decide, by decide,
   (azure_c7_userAttributesLookup reqAttrs (fun _ => Except.ok none)
       "test@example.com" "MySubscriptionId" (by decide) (by decide)).1 rfl,
   ((azure_c7_userAttributesLookup reqAttrs (fun _ => Except.error "error")
       "test@example.com" "MySubscriptionId" (by decide) (by decide)).2.1
     "error").mpr rfl⟩

/-- C5: when the user-id or subscription-id header is missing or empty the
identity middleware fails with ForbiddenAnonymousUser whatever the
x-user-groups header says (so that header is never consulted), and when
both are present and non-empty the middleware never returns
ForbiddenAnonymousUser. -/
theorem azure_c5_anonymousUser (A : Finset UserGroup) (r : Request) :
    ((toNonEmptyString (r "x-user-id") = none ∨
        toNonEmptyString (r "x-subscription-id") = none) →
      ∀ g, AzureApiAuthMiddleware A (setHeader r "x-user-groups" g) =
        Except.error AuthError.forbiddenAnonymousUser) ∧
    (toNonEmptyString (r "x-user-id") ≠ none →
      toNonEmptyString (r "x-subscription-id") ≠ none →
      AzureApiAuthMiddleware A r ≠
        Except.error AuthError.forbiddenAnonymousUser) := by
  constructor
  · intro h g
    have hu : setHeader r "x-user-groups" g "x-user-id" = r "x-user-id" := by
      simp [setHeader]
    have hs : setHeader r "x-user-groups" g "x-subscription-id" =
        r "x-subscription-id" := by
      simp [setHeader]
    rcases h with h | h
    · cases hsub : toNonEmptyString (r "x-subscription-id") with
      | none => simp [AzureApiAuthMiddleware, hu, hs, h, hsub]
      | some s => simp [AzureApiAuthMiddleware, hu, hs, h, hsub]
    · cases huser : toNonEmptyString (r "x-user-id") with
      | none => simp [AzureApiAuthMiddleware, hu, hs, h, huser]
      | some u => simp [AzureApiAuthMiddleware, hu, hs, h, huser]
  · intro h1 h2
    cases hu : toNonEmptyString (r "x-user-id") with
    | none => exact absurd hu h1
    | some u =>
      cases hs : toNonEmptyString (r "x-subscription-id") with
      | none => exact absurd hs h2
      | some s =>
        cases hg : ((toNonEmptyString (r "x-user-groups")).map
            getGroupsFromHeader).filter (fun gs => gs.card != 0) with
        | none => simp [AzureApiAuthMiddleware, hu, hs, hg]
        | some groups =>
          by_cases hall : ∃ g ∈ A, JsValue.enumMember g ∈ groups
          · simp [AzureApiAuthMiddleware, hu, hs, hg, hall]
          · simp [AzureApiAuthMiddleware, hu, hs, hg, hall]

/-- Witness for C5: a request with no identity headers is anonymous even
with a recognized groups header forced in, and the fully-headed fixture is
not anonymous. -/
theorem azure_c5_witness :
    AzureApiAuthMiddleware {UserGroup.ApiServiceRead}
        (setHeader reqEmpty "x-user-groups" (some "ApiServiceRead")) =
      Except.error AuthError.forbiddenAnonymousUser ∧
    AzureApiAuthMiddleware {UserGroup.ApiServiceRead} reqServiceRead ≠
      Except.error AuthError.forbiddenAnonymousUser :=
  ⟨(azure_c5_anonymousUser {UserGroup.ApiServiceRead} reqEmpty).1
      (Or.inl (by decide)) (some "ApiServiceRead"),
   (azure_c5_anonymousUser {UserGroup.ApiServiceRead} reqServiceRead).2
      (by decide) (by decide)⟩

/-- C9: the identity middleware is a pure function of the three headers it
reads — two requests agreeing on x-user-id, x-subscription-id and
x-user-groups resolve, for the same required group set, to the same
result. -/
theorem azure_c9_deterministic (A : Finset UserGroup) (r1 r2 : Request)
    (h1 : r1 "x-user-id" = r2 "x-user-id")
    (h2 : r1 "x-subscription-id" = r2 "x-subscription-id")
    (h3 : r1 "x-user-groups" = r2 "x-user-groups") :
    AzureApiAuthMiddleware A r1 = AzureApiAuthMiddleware A r2 := by
  unfold AzureApiAuthMiddleware
  rw [h1, h2, h3]

/-- Witness for C9: two syntactically different requests with the same
three auth headers get the same identity. -/
theorem azure_c9_witness :
    AzureApiAuthMiddleware {UserGroup.ApiServiceRead} reqServiceRead =
      AzureApiAuthMiddleware {UserGroup.ApiServiceRead}
        (setHeader reqServiceRead "x-user-email" (some "test@example.com")) :=
  azure_c9_deterministic {UserGroup.ApiServiceRead} reqServiceRead
    (setHeader reqServiceRead "x-user-email" (some "test@example.com"))
    (by decide) (by decide) (by decide)

/-- Counterexample to C3 as stated, in three parts.  First, the headerless
request has an absent x-user-groups header yet fails with
ForbiddenAnonymousUser — the anonymous-user check runs first.  Second,
with valid identity headers the single token toString, which is no name of
the enumeration, reaches an inherited Object.prototype member through the
source's indexed lookup, so the middleware answers ForbiddenNotAuthorized
rather than ForbiddenNoAuthorizationGroups.  Third, for the header
ApiServiceRead,toString the constructed identity's group set contains that
inherited member — an unrecognized token does appear in it. -/
theorem azure_c3_counterexample :
    (reqEmpty "x-user-groups" = none ∧
      AzureApiAuthMiddleware {UserGroup.ApiServiceRead} reqEmpty ≠
        Except.error AuthError.forbiddenNoAuthorizationGroups) ∧
    (toUserGroup "toString" = some (JsValue.protoMember "toString") ∧
      AzureApiAuthMiddleware {UserGroup.ApiServiceRead} reqToString =
        Except.error AuthError.forbiddenNotAuthorized) ∧
    (AzureApiAuthMiddleware {UserGroup.ApiServiceRead} reqMixedGroups =
        Except.ok authMixedFx ∧
      JsValue.protoMember "toString" ∈ authMixedFx.groups) :=
  ⟨⟨rfl, by decide⟩, ⟨by decide, by decide⟩, ⟨by decide, by decide⟩⟩

/-- C3 (amended): for requests that pass the anonymous-user check — user id
and subscription id present and non-empty — an x-user-groups header that is
absent, empty, or made only of tokens on which the indexed enum lookup is
undefined (tokens that are neither enumeration names nor names of inherited
Object.prototype properties) makes the middleware fail with
ForbiddenNoAuthorizationGroups; and every member of a constructed
identity's group set comes from a token whose lookup is defined, so
undefined-lookup tokens are silently discarded and never appear in it. -/
theorem azure_c3_noAuthorizationGroups (A : Finset UserGroup) (r : Request)
    (hu : toNonEmptyString (r "x-user-id") ≠ none)
    (hs : toNonEmptyString (r "x-subscription-id") ≠ none) :
    ((r "x-user-groups" = none ∨ r "x-user-groups" = some "" ∨
        (∀ h, r "x-user-groups" = some h →
          ∀ t ∈ jsSplit h ',', toUserGroup t = none)) →
      AzureApiAuthMiddleware A r =
        Except.error AuthError.forbiddenNoAuthorizationGroups) ∧
    (∀ auth, AzureApiAuthMiddleware A r = Except.ok auth →
      ∀ g ∈ auth.groups, ∃ h, r "x-user-groups" = some h ∧
        ∃ t, t ∈ jsSplit h ',' ∧ toUserGroup t = some g) := by
  constructor
  · intro hdis
    cases hu' : toNonEmptyString (r "x-user-id") with
    | none => exact absurd hu' hu
    | some u =>
      cases hs' : toNonEmptyString (r "x-subscription-id") with
      | none => exact absurd hs' hs
      | some s =>
        have hmg : ((toNonEmptyString (r "x-user-groups")).map
            getGroupsFromHeader).filter (fun gs => gs.card != 0) = none := by
          cases hgh : r "x-user-groups" with
          | none => simp [toNonEmptyString, hgh]
          | some h =>
            by_cases hemp : h = ""
            · subst hemp
              simp [toNonEmptyString, hgh]
            · rcases hdis with hd | hd | hd
              · rw [hgh] at hd; cases hd
              · rw [hgh] at hd
                injection hd with hd
                exact absurd hd hemp
              · have hall := hd h hgh
                have hempty : getGroupsFromHeader h = ∅ := by
                  unfold getGroupsFromHeader
                  rw [List.filterMap_eq_nil_iff.mpr hall]
                  rfl
                simp [toNonEmptyString, hemp, hempty, Option.filter]
        simp [AzureApiAuthMiddleware, hu', hs', hmg]
  · intro auth ha g hg
    cases hu' : toNonEmptyString (r "x-user-id") with
    | none => simp [AzureApiAuthMiddleware, hu'] at ha
    | some u =>
      cases hs' : toNonEmptyString (r "x-subscription-id") with
      | none => simp [AzureApiAuthMiddleware, hu', hs'] at ha
      | some s =>
        cases hg' : toNonEmptyString (r "x-user-groups") with
        | none => simp [AzureApiAuthMiddleware, hu', hs', hg'] at ha
        | some h =>
          by_cases hcard : (getGroupsFromHeader h).card != 0
          · by_cases hallow :
                ∃ g' ∈ A, JsValue.enumMember g' ∈ getGroupsFromHeader h
            · have hgroups : auth.groups = getGroupsFromHeader h := by
                simp [AzureApiAuthMiddleware, hu', hs', hg', Option.filter,
                  hcard, hallow] at ha
                rw [← ha]
              refine ⟨h, (toNonEmptyString_eq_some.mp hg').1, ?_⟩
              rw [hgroups] at hg
              unfold getGroupsFromHeader at hg
              rw [List.mem_toFinset] at hg
              exact List.mem_filterMap.mp hg
            · simp [AzureApiAuthMiddleware, hu', hs', hg', Option.filter,
                hcard, hallow] at ha
          · simp [AzureApiAuthMiddleware, hu', hs', hg', Option.filter,
              hcard] at ha

/-- Witness for C3 (amended): with identity headers present and the groups
header reading only the unrecognized token Bogus, the middleware answers
ForbiddenNoAuthorizationGroups. -/
theorem azure_c3_witness :
    toNonEmptyString (reqBogusGroups "x-user-id") ≠ none ∧
    toNonEmptyString (reqBogusGroups "x-subscription-id") ≠ none ∧
    AzureApiAuthMiddleware {UserGroup.ApiServiceRead} reqBogusGroups =
      Except.error AuthError.forbiddenNoAuthorizationGroups :=
  ⟨by decide, by decide,
   (azure_c3_noAuthorizationGroups {UserGroup.ApiServiceRead} reqBogusGroups
       (by decide) (by decide)).1
     (Or.inr (Or.inr (by
       intro h hh t ht
       have hb : h = "Bogus" := by
         have : reqBogusGroups "x-user-groups" = some "Bogus" := by decide
         rw [this] at hh
         injection hh with hh
         exact hh.symm
       subst hb
       have hts : jsSplit "Bogus" ',' = ["Bogus"] := by decide
       rw [hts, List.mem_singleton] at ht
       subst ht
       decide)))⟩

/-- A genuine group is a member of the header's parsed set exactly when it
is one of the header's recognized groups. -/
theorem enumMember_mem_getGroupsFromHeader {h : String} {g : UserGroup} :
    JsValue.enumMember g ∈ getGroupsFromHeader h ↔
      g ∈ recognizedGroups h := by
  unfold getGroupsFromHeader recognizedGroups
  rw [List.mem_toFinset, List.mem_toFinset, List.mem_filterMap,
    List.mem_filterMap]
  constructor
  · rintro ⟨t, ht, htg⟩
    refine ⟨t, ht, ?_⟩
    rw [htg]
  · rintro ⟨t, ht, htg⟩
    refine ⟨t, ht, ?_⟩
    cases hcase : toUserGroup t with
    | none =>
      rw [hcase] at htg
      cases htg
    | some v =>
      cases v with
      | enumMember g' =>
        rw [hcase] at htg
        simp only [Option.some.injEq] at htg
        rw [htg]
      | protoMember n =>
        rw [hcase] at htg
        cases htg

/-- Counterexample to C4 as stated, in two parts.  First, a request
carrying the recognized group ApiServiceRead but no identity headers has a
non-empty parsed group set whose intersection with the required set of
ApiServiceWrite is empty, yet the middleware fails with
ForbiddenAnonymousUser, not ForbiddenNotAuthorized, refuting the claimed
equivalence.  Second, for the header ApiServiceRead,toString the
middleware succeeds but the identity's group set also holds the inherited
toString member, so it is not equal to the parsed group set. -/
theorem azure_c4_counterexample :
    (parsedUserGroups reqGroupsNoUser ≠ ∅ ∧
      parsedUserGroups reqGroupsNoUser ∩ {UserGroup.ApiServiceWrite} = ∅ ∧
      AzureApiAuthMiddleware {UserGroup.ApiServiceWrite} reqGroupsNoUser ≠
        Except.error AuthError.forbiddenNotAuthorized) ∧
    (AzureApiAuthMiddleware {UserGroup.ApiServiceRead} reqMixedGroups =
        Except.ok authMixedFx ∧
      authMixedFx.groups ≠
        (parsedUserGroups reqMixedGroups).image JsValue.enumMember) :=
  ⟨⟨by decide, by decide, by decide⟩, ⟨by decide, by decide⟩⟩

/-- C4 (amended): for requests that pass the anonymous-user check — user id
and subscription id present and non-empty — and whose parsed group set is
non-empty, the middleware fails with ForbiddenNotAuthorized exactly when
that set meets none of the required groups; and a successful identity's
group set has exactly the parsed group set as its UserGroup members — the
full parsed set, not merely the intersection — though inherited
Object.prototype members reached by tokens such as toString may
additionally appear beside them. -/
theorem azure_c4_intersection (A : Finset UserGroup) (r : Request)
    (hu : toNonEmptyString (r "x-user-id") ≠ none)
    (hs : toNonEmptyString (r "x-subscription-id") ≠ none)
    (hne : parsedUserGroups r ≠ ∅) :
    (AzureApiAuthMiddleware A r =
        Except.error AuthError.forbiddenNotAuthorized ↔
      parsedUserGroups r ∩ A = ∅) ∧
    (∀ auth, AzureApiAuthMiddleware A r = Except.ok auth →
      ∀ g : UserGroup,
        JsValue.enumMember g ∈ auth.groups ↔ g ∈ parsedUserGroups r) := by
  cases hu' : toNonEmptyString (r "x-user-id") with
  | none => exact absurd hu' hu
  | some u =>
    cases hs' : toNonEmptyString (r "x-subscription-id") with
    | none => exact absurd hs' hs
    | some s =>
      cases hg' : toNonEmptyString (r "x-user-groups") with
      | none =>
        exfalso
        apply hne
        unfold parsedUserGroups
        rw [hg']
      | some h =>
        have hpg : parsedUserGroups r = recognizedGroups h := by
          unfold parsedUserGroups
          rw [hg']
        rw [hpg] at hne ⊢
        obtain ⟨g0, hg0⟩ := Finset.nonempty_iff_ne_empty.mpr hne
        have hg0' : JsValue.enumMember g0 ∈ getGroupsFromHeader h :=
          enumMember_mem_getGroupsFromHeader.mpr hg0
        have hcard : ((getGroupsFromHeader h).card != 0) = true := by
          simp only [bne_iff_ne, Ne, Finset.card_eq_zero]
          intro hempty
          rw [hempty] at hg0'
          exact absurd hg0' (Finset.not_mem_empty _)
        have hiff : (∃ g ∈ A, JsValue.enumMember g ∈ getGroupsFromHeader h) ↔
            ∃ g ∈ A, g ∈ recognizedGroups h := by
          constructor
          · rintro ⟨g, hgA, hgG⟩
            exact ⟨g, hgA, enumMember_mem_getGroupsFromHeader.mp hgG⟩
          · rintro ⟨g, hgA, hgG⟩
            exact ⟨g, hgA, enumMember_mem_getGroupsFromHeader.mpr hgG⟩
        constructor
        · constructor
          · intro hres
            by_cases hallow :
                ∃ g ∈ A, JsValue.enumMember g ∈ getGroupsFromHeader h
            · simp [AzureApiAuthMiddleware, hu', hs', hg', Option.filter,
                hcard, hallow] at hres
            · rw [Finset.eq_empty_iff_forall_not_mem]
              intro x hx
              rw [Finset.mem_inter] at hx
              exact hallow (hiff.mpr ⟨x, hx.2, hx.1⟩)
          · intro hint
            have hallow :
                ¬∃ g ∈ A, JsValue.enumMember g ∈ getGroupsFromHeader h := by
              intro hex
              obtain ⟨g, hgA, hgG⟩ := hiff.mp hex
              have hmem : g ∈ recognizedGroups h ∩ A :=
                Finset.mem_inter.mpr ⟨hgG, hgA⟩
              rw [hint] at hmem
              exact absurd hmem (Finset.not_mem_empty g)
            simp [AzureApiAuthMiddleware, hu', hs', hg', Option.filter,
              hcard, hallow]
        · intro auth ha g
          by_cases hallow :
              ∃ g' ∈ A, JsValue.enumMember g' ∈ getGroupsFromHeader h
          · have hgroups : auth.groups = getGroupsFromHeader h := by
              simp [AzureApiAuthMiddleware, hu', hs', hg', Option.filter,
                hcard, hallow] at ha
              rw [← ha]
            rw [hgroups]
            exact enumMember_mem_getGroupsFromHeader
          · simp [AzureApiAuthMiddleware, hu', hs', hg', Option.filter,
              hcard, hallow] at ha

/-- Witness for C4 (amended): the fixture holding only ApiServiceRead,
checked against required group ApiServiceWrite, satisfies the proved
equivalence and the full-parsed-set property. -/
theorem azure_c4_witness :
    toNonEmptyString (reqServiceRead "x-user-id") ≠ none ∧
    toNonEmptyString (reqServiceRead "x-subscription-id") ≠ none ∧
    parsedUserGroups reqServiceRead ≠ ∅ ∧
    (AzureApiAuthMiddleware {UserGroup.ApiServiceWrite} reqServiceRead =
        Except.error AuthError.forbiddenNotAuthorized ↔
      parsedUserGroups reqServiceRead ∩ {UserGroup.ApiServiceWrite} = ∅) ∧
    (∀ auth,
      AzureApiAuthMiddleware {UserGroup.ApiServiceWrite} reqServiceRead =
        Except.ok auth →
      ∀ g : UserGroup,
        JsValue.enumMember g ∈ auth.groups ↔
          g ∈ parsedUserGroups reqServiceRead) :=
  ⟨by decide, by decide, by decide,
   (azure_c4_intersection {UserGroup.ApiServiceWrite} reqServiceRead
       (by decide) (by decide) (by decide)).1,
   (azure_c4_intersection {UserGroup.ApiServiceWrite} reqServiceRead
       (by decide) (by decide) (by decide)).2⟩

/-- C8: building the internal payload from a valid public payload and
converting the stored record back to public form preserves membership of
the authorized_cidrs and authorized_recipients sets. -/
theorem azure_c8_roundTrip (body : Service) (hvalid : Service.is body = true)
    (svc : IService) (hmw : ServicePayloadMiddleware body = Except.ok svc)
    (id : String) (version : Nat) :
    ∀ x : String,
      (x ∈ (retrievedServiceToPublic
          (serviceToRetrieved svc id version)).authorized_cidrs ↔
        x ∈ body.authorized_cidrs) ∧
      (x ∈ (retrievedServiceToPublic
          (serviceToRetrieved svc id version)).authorized_recipients ↔
        x ∈ body.authorized_recipients) := by
  have hparts := hvalid
  simp only [Service.is, Bool.and_eq_true, List.all_eq_true] at hparts
  have hcidr : ∀ x ∈ body.authorized_cidrs, CIDR.is x = true :=
    hparts.1.1.1.1.1
  have hfc : ∀ x ∈ body.authorized_recipients, FiscalCode.is x = true :=
    hparts.1.1.1.1.2
  have hsvc : svc =
      { authorizedCIDRs := toAuthorizedCIDRs body.authorized_cidrs
        authorizedRecipients :=
          toAuthorizedRecipients body.authorized_recipients
        departmentName := body.department_name
        organizationName := body.organization_name
        serviceId := body.service_id
        serviceName := body.service_name } := by
    simp only [ServicePayloadMiddleware, hvalid, if_true] at hmw
    injection hmw with h
    exact h.symm
  subst hsvc
  intro x
  constructor
  · simp only [retrievedServiceToPublic, serviceToRetrieved,
      toAuthorizedCIDRs, List.mem_filter, List.mem_dedup]
    constructor
    · rintro ⟨hm, _⟩
      exact hm
    · intro hm
      exact ⟨hm, hcidr x hm⟩
  · simp only [retrievedServiceToPublic, serviceToRetrieved,
      toAuthorizedRecipients, List.mem_filter, List.mem_dedup]
    constructor
    · rintro ⟨hm, _⟩
      exact hm
    · intro hm
      exact ⟨hm, hfc x hm⟩

/-- Witness for C8: the concrete valid payload fixture round-trips, its
CIDR and recipient sets keeping exactly their members. -/
theorem azure_c8_witness :
    Service.is bodyFx = true ∧
    ServicePayloadMiddleware bodyFx = Except.ok svcFx ∧
    ∀ x : String,
      (x ∈ (retrievedServiceToPublic
          (serviceToRetrieved svcFx "id1" 1)).authorized_cidrs ↔
        x ∈ bodyFx.authorized_cidrs) ∧
      (x ∈ (retrievedServiceToPublic
          (serviceToRetrieved svcFx "id1" 1)).authorized_recipients ↔
        x ∈ bodyFx.authorized_recipients) :=
  ⟨by decide, by decide,
   azure_c8_roundTrip bodyFx (by decide) svcFx (by decide) "id1" 1⟩
